import Mathlib

/-!
Verification of the buffer-object / framebuffer / tile-engine core of the
intel-gpu-tools fork (lib/igt_bo.c, lib/igt_framebuffer.c, lib/igt_vc4.c).

The C code is shallowly embedded: byte buffers become total maps from byte
offsets to byte values, structs become Lean structures, the pluggable
backend operation tables become records of the results their entries
produce, and every fallible or crashing path (NULL dereference,
out-of-bounds array access, failed assertion) is made explicit in the
result type of the embedded operation.

All C integer quantities modelled with Nat are nonnegative at every use
exercised by a theorem below; wherever C subtraction or comparison could
differ from the Nat translation, the spot is commented and the theorems
carry the hypotheses under which the two agree.
-/

namespace IGT

/-- A byte-addressable buffer: total map from byte offset to byte value. -/
abbrev Buf := Nat → Nat

/-- memcpy(dst + dstpos, src + srcpos, len) for two distinct buffers:
the destination holds the copied source bytes on [dstpos, dstpos+len) and
its old contents elsewhere. -/
def memcpyBytes (dst : Buf) (dstpos : Nat) (src : Buf) (srcpos : Nat) (len : Nat) : Buf :=
  fun p => if dstpos ≤ p ∧ p < dstpos + len then src (srcpos + (p - dstpos)) else dst p

/-! ## VC4 T-tile layout constants (lib/igt_vc4.c lines 136-141) -/

def VC4_T_TILE_CPP : Nat := 4
def VC4_T_UTILE_LINE_SIZE : Nat := 16
def VC4_T_UTILE_SIZE : Nat := 64
def VC4_T_SUBTILE_LINE_SIZE : Nat := 256
def VC4_T_SUBTILE_SIZE : Nat := 1024
def VC4_T_TILE_SIZE : Nat := 4096

/-- vc4_get_t_utile_pos (lib/igt_vc4.c lines 162-223).

Computes, for the 4x4-pixel micro-tile holding (xpos, ypos), the byte
offset of its first line in the linear layout and in the T-tiled layout.
Returns none when the igt_assert at the top of the C function fails
(the C assert tests (xpos % 4 == 0) OR (ypos % 4 == 0), as written).

Coordinates are C ints that are nonnegative in every call; Nat division
and modulus agree with C on nonnegative operands.  The two subtractions
(tiles_per_row - xtile and 1 - xsubtile) are C int subtractions; xsubtile
is always 0 or 1 (it is (xpos % 32) / 16), and the theorems below only
use coordinates with xtile < tiles_per_row, so Nat subtraction agrees
with C at every use. -/
def vc4_get_t_utile_pos (xpos ypos tiles_per_row tiles_per_column linear_pitch : Nat) :
    Option (Nat × Nat) :=
  if ¬(xpos % 4 = 0 ∨ ypos % 4 = 0) then
    none
  else
    let linearpos := ypos * linear_pitch + xpos * VC4_T_TILE_CPP
    let xtile := xpos / 32
    let ytile := ypos / 32
    let xrem := xpos % 32
    let yrem := ypos % 32
    let xsubtile := xrem / 16
    let ysubtile := yrem / 16
    let xrem2 := xrem % 16
    let yrem2 := yrem % 16
    let xutile := xrem2 / 4
    let yutile := yrem2 / 4
    let base := ytile * tiles_per_row * VC4_T_TILE_SIZE
    let tilepos :=
      if ytile % 2 ≠ 0 then
        base + (tiles_per_row - xtile) * VC4_T_TILE_SIZE
             + ((1 - xsubtile) * 2 + ysubtile) * VC4_T_TILE_SIZE
      else
        base + xtile * VC4_T_TILE_SIZE
             + (xsubtile * 2 + (1 - ysubtile)) * VC4_T_TILE_SIZE
    some (linearpos, tilepos + (yutile * 4 + xutile) * VC4_T_UTILE_SIZE)

/-- vc4_t_utile_from_linear (lib/igt_vc4.c lines 260-276): copy the 4 lines
of 16 bytes of one micro-tile from the linear buffer into the tile buffer.
The C loop advances linearpos by linear_pitch and tilepos by 16 each
iteration, i.e. line i is copied from linearpos + i*linear_pitch to
tilepos + i*16.  none models the aborted assert inside
vc4_get_t_utile_pos. -/
def vc4_t_utile_from_linear (xpos ypos tiles_per_row tiles_per_column linear_pitch : Nat)
    (linearbuf tilebuf : Buf) : Option Buf :=
  (vc4_get_t_utile_pos xpos ypos tiles_per_row tiles_per_column linear_pitch).map fun pos =>
    (List.range 4).foldl
      (fun tb i =>
        memcpyBytes tb (pos.2 + i * VC4_T_UTILE_LINE_SIZE) linearbuf
          (pos.1 + i * linear_pitch) VC4_T_UTILE_LINE_SIZE)
      tilebuf

/-- vc4_t_utile_to_linear (lib/igt_vc4.c lines 278-294): copy the 4 lines
of 16 bytes of one micro-tile from the tile buffer into the linear buffer,
using the same coordinate math as vc4_t_utile_from_linear. -/
def vc4_t_utile_to_linear (xpos ypos tiles_per_row tiles_per_column linear_pitch : Nat)
    (linearbuf tilebuf : Buf) : Option Buf :=
  (vc4_get_t_utile_pos xpos ypos tiles_per_row tiles_per_column linear_pitch).map fun pos =>
    (List.range 4).foldl
      (fun lb i =>
        memcpyBytes lb (pos.1 + i * linear_pitch) tilebuf
          (pos.2 + i * VC4_T_UTILE_LINE_SIZE) VC4_T_UTILE_LINE_SIZE)
      linearbuf

/-- The list of values visited by the C loop
for (v = 0; v < bound; v += 4): the multiples of 4 strictly below bound. -/
def step4List (bound : Nat) : List Nat :=
  (List.range ((bound + 3) / 4)).map (fun k => 4 * k)

/-- The buffer transformation performed by vc4_t_tile_fb_map_linear
(lib/igt_vc4.c lines 296-327) on the freshly allocated shadow linear
buffer: starting from the shadow buffer's initial contents linearmap, the
nested loops run vc4_t_utile_to_linear for
ypos = 0, 4, ... < tiles_per_column and xpos = 0, 4, ... < tiles_per_row,
where tiles_per_row = width / 32 and tiles_per_column = height / 32 are
computed exactly as in the C source. -/
def vc4_t_tile_fb_map_linear_copy (width height linear_pitch : Nat)
    (tilemap linearmap : Buf) : Option Buf :=
  let tiles_per_row := width / 32
  let tiles_per_column := height / 32
  (step4List tiles_per_column).foldl
    (fun acc ypos =>
      acc.bind fun lin =>
        (step4List tiles_per_row).foldl
          (fun acc2 xpos =>
            acc2.bind fun lin2 =>
              vc4_t_utile_to_linear xpos ypos tiles_per_row tiles_per_column
                linear_pitch lin2 tilemap)
          (some lin))
    (some linearmap)

/-- The shape shared by the copy loops of vc4_t_utile_from_linear and
vc4_t_utile_to_linear: four 16-byte line copies, the destination line
starting at dpos + i*dstride and the source line at spos + i*sstride. -/
def copyLines4 (dst : Buf) (dpos dstride : Nat) (src : Buf) (spos sstride : Nat) : Buf :=
  (List.range 4).foldl
    (fun b i => memcpyBytes b (dpos + i * dstride) src (spos + i * sstride) 16) dst

/-! ## Buffer objects (lib/igt_bo.c) -/

/-- One backend vtable entry being invoked (observable effect of a BO
operation reaching the igt_bo_ops_t table). -/
inductive BoEvent
  | backendMap
  | backendUnmap
  | backendDestroy
deriving DecidableEq

/-- An igt_bo_ops_t backend operation table, modeled by the results its
entries produce: map returns a pointer (none = NULL pointer), possibly
depending on the requested mode; unmap returns a status. -/
structure igt_bo_ops where
  mapResult : Bool → Option Nat
  unmapResult : Int

/-- struct igt_bo.  dev and priv are opaque and omitted.  The fields map,
linearmap and mapcnt are the ones igt_bo.c reads and writes (the spec's
mapped-pointer, map-mode and map-nest-count).  ops is nullable, like the
C vtable pointer. -/
structure igt_bo where
  refcnt : Int
  handle : Nat
  size : Nat
  ops : Option igt_bo_ops
  map : Option Nat
  linearmap : Bool
  mapcnt : Int

/-- igt_bo_create (lib/igt_bo.c lines 34-49): calloc zeroes the wrapper,
then dev, size, handle and refcnt are assigned.  The ops argument is never
stored — the C body contains no assignment to bo->ops — so the vtable
field keeps calloc's NULL.  Wrapper allocation is assumed to succeed (on
calloc failure the C function returns NULL before touching any state). -/
def igt_bo_create (ops : igt_bo_ops) (handle size : Nat) : igt_bo :=
  { refcnt := 1, handle := handle, size := size, ops := none,
    map := none, linearmap := false, mapcnt := 0 }

/-- igt_bo_ref (lib/igt_bo.c lines 51-57) on a non-NULL BO: increments the
reference count and returns the same object. -/
def igt_bo_ref (bo : igt_bo) : igt_bo :=
  { bo with refcnt := bo.refcnt + 1 }

/-- Outcome of igt_bo_unref. -/
inductive UnrefOut
  | alive (bo : igt_bo)
  | freed (events : List BoEvent)
  | crash

/-- igt_bo_unref (lib/igt_bo.c lines 59-66): decrement refcnt and return
if it is still nonzero; otherwise call bo->ops->destroy(bo) and free the
wrapper.  Dereferencing a NULL ops vtable is a crash. -/
def igt_bo_unref (bo : igt_bo) : UnrefOut :=
  if bo.refcnt - 1 ≠ 0 then .alive { bo with refcnt := bo.refcnt - 1 }
  else
    match bo.ops with
    | some _ => .freed [.backendDestroy]
    | none => .crash

/-- n successive igt_bo_ref calls. -/
def igt_bo_ref_times (bo : igt_bo) : Nat → igt_bo
  | 0 => bo
  | n + 1 => igt_bo_ref_times (igt_bo_ref bo) n

/-- n successive igt_bo_unref calls; the sequence stops at the first
free or crash (any further unref would be a use-after-free). -/
def igt_bo_unref_times (bo : igt_bo) : Nat → UnrefOut
  | 0 => .alive bo
  | n + 1 =>
    match igt_bo_unref bo with
    | .alive bo2 => igt_bo_unref_times bo2 n
    | out => out

/-- Outcome of igt_bo_map: the returned pointer, the updated BO, and the
backend calls made; or a crash (NULL vtable dereference). -/
inductive BoMapOut
  | ok (ptr : Option Nat) (bo : igt_bo) (events : List BoEvent)
  | crash

/-- igt_bo_map (lib/igt_bo.c lines 68-85).  If already mapped: a mode
mismatch returns NULL with no side effect, a matching mode increments
mapcnt and returns the existing pointer.  Otherwise bo->ops->map is
invoked; on success the pointer, mapcnt = 1 and the mode are recorded, on
failure (NULL return) the BO is left unmapped (the C assigns the backend
result to bo->map before testing it, which on failure rewrites NULL over
NULL). -/
def igt_bo_map (bo : igt_bo) (linear : Bool) : BoMapOut :=
  match bo.map with
  | some p =>
    if linear ≠ bo.linearmap then .ok none bo []
    else .ok (some p) { bo with mapcnt := bo.mapcnt + 1 } []
  | none =>
    match bo.ops with
    | none => .crash
    | some o =>
      match o.mapResult linear with
      | some p =>
        .ok (some p) { bo with map := some p, mapcnt := 1, linearmap := linear }
          [.backendMap]
      | none => .ok none bo [.backendMap]

/-- Outcome of igt_bo_unmap: the returned status, the updated BO and the
backend calls made; or a crash (NULL vtable dereference). -/
inductive BoUnmapOut
  | ok (ret : Int) (bo : igt_bo) (events : List BoEvent)
  | crash

/-- igt_bo_unmap (lib/igt_bo.c lines 87-101).  With mapcnt > 1 it only
decrements the nest count (returning the decremented count, no backend
call).  Otherwise bo->ops->unmap runs; status 0 clears mapcnt and the
pointer, a nonzero status leaves the BO mapped. -/
def igt_bo_unmap (bo : igt_bo) : BoUnmapOut :=
  if bo.mapcnt > 1 then .ok (bo.mapcnt - 1) { bo with mapcnt := bo.mapcnt - 1 } []
  else
    match bo.ops with
    | none => .crash
    | some o =>
      if o.unmapResult = 0 then
        .ok 0 { bo with mapcnt := 0, map := none } [.backendUnmap]
      else .ok o.unmapResult bo [.backendUnmap]

/-! ## Framebuffers (lib/igt_framebuffer.c) -/

/-- igt_fb_format_info_t (lib/igt_framebuffer.h lines 36-40): format id,
plane count, and the cpp array of three uint8_t entries. -/
structure igt_fb_format_info where
  id : Nat
  nplanes : Nat
  cpp : List Nat
deriving DecidableEq

/-- fourcc code from drm_fourcc.h: RG16. -/
def DRM_FORMAT_RGB565 : Nat := 0x36314752
/-- fourcc code from drm_fourcc.h: XR24. -/
def DRM_FORMAT_XRGB8888 : Nat := 0x34325258
/-- fourcc code from drm_fourcc.h: XR30. -/
def DRM_FORMAT_XRGB2101010 : Nat := 0x30335258
/-- fourcc code from drm_fourcc.h: AR24. -/
def DRM_FORMAT_ARGB8888 : Nat := 0x34325241

/-- The static formats[] table (lib/igt_framebuffer.c lines 33-38), with
the nplanes and cpp values exactly as written in the source. -/
def formats : List igt_fb_format_info :=
  [ { id := DRM_FORMAT_RGB565, nplanes := 1, cpp := [16, 0, 0] },
    { id := DRM_FORMAT_XRGB8888, nplanes := 1, cpp := [32, 0, 0] },
    { id := DRM_FORMAT_XRGB2101010, nplanes := 1, cpp := [32, 0, 0] },
    { id := DRM_FORMAT_ARGB8888, nplanes := 1, cpp := [32, 0, 0] } ]

/-- igt_get_fb_format_info (lib/igt_framebuffer.c lines 40-50): linear
search over the table, NULL (none) when the id is absent. -/
def igt_get_fb_format_info (format : Nat) : Option igt_fb_format_info :=
  formats.find? (fun fi => fi.id == format)

/-- The per-plane pitch computed by igt_vc4_new_framebuffer
(lib/igt_vc4.c line 439): fbplanes[i].pitch = finfo->cpp[i] * width. -/
def vc4_fb_plane_pitch (finfo : igt_fb_format_info) (width i : Nat) : Nat :=
  finfo.cpp.getD i 0 * width

/-- igt_fb_plane_t (lib/igt_framebuffer.h lines 44-48): nullable BO
pointer plus pitch and byte offset. -/
structure igt_fb_plane where
  bo : Option igt_bo
  pitch : Nat
  offset : Nat

/-- The all-zero plane slot produced by calloc or a zero initializer. -/
def emptyPlane : igt_fb_plane := { bo := none, pitch := 0, offset := 0 }

/-- struct igt_framebuffer (lib/igt_framebuffer.h lines 57-69).  planes
models the C array igt_fb_plane planes[IGT_MAX_FB_PLANES] with
IGT_MAX_FB_PLANES = 4: a total map from index to slot, of which only
indices 0..3 exist in the C object; every embedded operation either stays
below index 4 or explicitly flags the out-of-bounds access. -/
structure igt_framebuffer where
  refcnt : Int
  id : Nat
  format : Nat
  width : Nat
  height : Nat
  modifier : Nat
  planes : Nat → igt_fb_plane
  planeptrs : Nat → Option Nat

/-- Outcome of igt_framebuffer_create: a framebuffer, a NULL return
(which the C produces only on calloc failure), or a crash. -/
inductive FbCreateOut
  | ok (fb : igt_framebuffer)
  | nullret
  | crash

/-- igt_framebuffer_create (lib/igt_framebuffer.c lines 52-94).  The
FormatInfo lookup result finfo is dereferenced (finfo->nplanes in the
plane loop) without any NULL check, so an unknown format crashes instead
of returning NULL.  For each of the format's planes the caller-supplied
slot is copied and its BO reference counted; addfb.handles[i] dereferences
the plane's BO pointer, so a missing BO also crashes.  Wrapper allocation
and the ADDFB ioctl are assumed to succeed; the registered id is opaque
and modeled as 0. -/
def igt_framebuffer_create (width height format modifier : Nat)
    (planes : Nat → igt_fb_plane) : FbCreateOut :=
  match igt_get_fb_format_info format with
  | none => .crash
  | some finfo =>
    if ∀ i < finfo.nplanes, ((planes i).bo).isSome then
      .ok { refcnt := 1, id := 0, format := format, width := width, height := height,
            modifier := modifier,
            planes := fun i =>
              if i < finfo.nplanes then
                { planes i with bo := ((planes i).bo).map igt_bo_ref }
              else emptyPlane,
            planeptrs := fun _ => none }
    else .crash

/-- Conversion of a C int to size_t (the unsigned conversion performed
when an int is compared against or used with a sizeof-derived value). -/
def size_t_of_int (i : Int) : Nat := (i % (2 : Int) ^ 64).toNat

/-- Outcome of igt_framebuffer_get_ptr. -/
inductive GetPtrOut
  | null
  | ptr (addr : Nat)
  | oobRead
deriving DecidableEq

/-- igt_framebuffer_get_ptr (lib/igt_framebuffer.c lines 139-147).  The C
guard is plane > ARRAY_SIZE(fb->planes): ARRAY_SIZE is a sizeof quotient
of type size_t, so the int plane converts to size_t for the comparison.
Negative plane values become huge and take the NULL return, but
plane == 4 passes the guard (4 > 4 is false) and the function then reads
fb->planes[4] — one element past the 4-entry array — which the embedding
flags as oobRead.  In range, the function returns NULL unless the plane
has a BO that is currently mapped, in which case it returns the BO's
mapped pointer plus the plane's byte offset. -/
def igt_framebuffer_get_ptr (fb : igt_framebuffer) (plane : Int) : GetPtrOut :=
  if size_t_of_int plane > 4 then .null
  else if size_t_of_int plane ≥ 4 then .oobRead
  else
    match (fb.planes (size_t_of_int plane)).bo with
    | none => .null
    | some bo =>
      match bo.map with
      | none => .null
      | some m => .ptr (m + (fb.planes (size_t_of_int plane)).offset)

/-- One BO-level call made by the framebuffer map/unmap loops, tagged with
the plane index it acts on. -/
inductive FbEvent
  | boMap (i : Nat)
  | boUnmap (i : Nat)
deriving DecidableEq

/-- Outcome of igt_framebuffer_map: status, updated plane array and the
ordered trace of BO-level calls; or a crash. -/
inductive FbMapOut
  | ok (ret : Int) (planes : Nat → igt_fb_plane) (trace : List FbEvent)
  | crash
  | fuelOut

/-- The err_unmap unwind loop of igt_framebuffer_map (lib/igt_framebuffer.c
lines 132-134): for (i--; i >= 0; i--) igt_bo_unmap(fb->planes[i].bo).
The argument j is the number of planes left to unwind (the C loop enters
with i = j - 1 and counts down to 0); unmap return statuses are ignored,
as in the C.  none models a NULL BO dereference or a crash inside
igt_bo_unmap. -/
def fbMapUnwind : (Nat → igt_fb_plane) → Nat → List FbEvent →
    Option ((Nat → igt_fb_plane) × List FbEvent)
  | planes, 0, tr => some (planes, tr)
  | planes, j + 1, tr =>
    match (planes j).bo with
    | none => none
    | some bo =>
      match igt_bo_unmap bo with
      | .crash => none
      | .ok _ bo2 _ =>
        fbMapUnwind (Function.update planes j { planes j with bo := some bo2 }) j
          (tr ++ [.boUnmap j])

/-- The forward loop of igt_framebuffer_map (lib/igt_framebuffer.c lines
121-137): for (i = 0; i < ARRAY_SIZE(fb->planes) && fb->planes[i].bo; i++)
maps each present plane's BO; a NULL result jumps to err_unmap, which
unwinds planes i-1 .. 0 and returns -EINVAL (-22).  The fuel argument
only bounds the recursion; the index increases towards the bound 4, so
from the entry state (i = 0) at most 5 guard checks happen and the fuel
of 8 supplied by igt_framebuffer_map is never exhausted. -/
def fbMapGo : (Nat → igt_fb_plane) → Bool → Nat → List FbEvent → Nat → FbMapOut
  | _, _, _, _, 0 => .fuelOut
  | planes, linear, i, tr, fuel + 1 =>
    if i < 4 then
      match (planes i).bo with
      | none => .ok 0 planes tr
      | some bo =>
        match igt_bo_map bo linear with
        | .crash => .crash
        | .ok none bo2 _ =>
          match fbMapUnwind (Function.update planes i { planes i with bo := some bo2 }) i
              (tr ++ [.boMap i]) with
          | none => .crash
          | some (ps, tr2) => .ok (-22) ps tr2
        | .ok (some _) bo2 _ =>
          fbMapGo (Function.update planes i { planes i with bo := some bo2 }) linear
            (i + 1) (tr ++ [.boMap i]) fuel
    else .ok 0 planes tr

/-- igt_framebuffer_map (lib/igt_framebuffer.c lines 121-137). -/
def igt_framebuffer_map (fb : igt_framebuffer) (linear : Bool) : FbMapOut :=
  fbMapGo fb.planes linear 0 [] 8

/-- Outcome of igt_framebuffer_unmap. -/
inductive FbUnmapOut
  | ok (ret : Int) (planes : Nat → igt_fb_plane) (trace : List FbEvent)
  | crash
  | fuelOut

/-- The loop of igt_framebuffer_unmap (lib/igt_framebuffer.c lines 149-160):
for (i = 0; i < ARRAY_SIZE(fb->planes) && fb->planes[i].bo; i--).
The index i is a C int but ARRAY_SIZE is of type size_t, so the guard
i < ARRAY_SIZE converts i to size_t: once i reaches -1 the converted
value is 2^64 - 1 and the loop exits.  A nonzero unmap status is returned
immediately.  The fuel argument only bounds the recursion; from the
function's entry state (i = 0) the loop runs at most one iteration, so
fuel is never exhausted. -/
def fbUnmapLoop : (Nat → igt_fb_plane) → Int → List FbEvent → Nat → FbUnmapOut
  | _, _, _, 0 => .fuelOut
  | planes, i, tr, fuel + 1 =>
    if size_t_of_int i < 4 then
      match (planes (size_t_of_int i)).bo with
      | none => .ok 0 planes tr
      | some bo =>
        match igt_bo_unmap bo with
        | .crash => .crash
        | .ok ret bo2 _ =>
          let planes2 := Function.update planes (size_t_of_int i)
            { planes (size_t_of_int i) with bo := some bo2 }
          if ret ≠ 0 then .ok ret planes2 (tr ++ [.boUnmap (size_t_of_int i)])
          else fbUnmapLoop planes2 (i - 1) (tr ++ [.boUnmap (size_t_of_int i)]) fuel
    else .ok 0 planes tr

/-- igt_framebuffer_unmap (lib/igt_framebuffer.c lines 149-160). -/
def igt_framebuffer_unmap (fb : igt_framebuffer) : FbUnmapOut :=
  fbUnmapLoop fb.planes 0 [] 8

/-! ## Concrete fixtures used by witnesses and counterexamples -/

/-- A backend table whose map succeeds at pointer 4096 and whose unmap
succeeds. -/
def opsGood : igt_bo_ops := { mapResult := fun _ => some 4096, unmapResult := 0 }

/-- A backend table whose map fails (returns NULL) and whose unmap
succeeds. -/
def opsMapFails : igt_bo_ops := { mapResult := fun _ => none, unmapResult := 0 }

/-- An unmapped BO wired to the opsGood backend. -/
def boUnmappedGood : igt_bo :=
  { refcnt := 1, handle := 7, size := 4096, ops := some opsGood,
    map := none, linearmap := false, mapcnt := 0 }

/-- An unmapped BO wired to the opsMapFails backend. -/
def boUnmappedMapFails : igt_bo :=
  { refcnt := 1, handle := 8, size := 4096, ops := some opsMapFails,
    map := none, linearmap := false, mapcnt := 0 }

/-- A BO currently mapped once in native mode at pointer p. -/
def boMappedNative (p : Nat) : igt_bo :=
  { refcnt := 1, handle := 9, size := 4096, ops := some opsGood,
    map := some p, linearmap := false, mapcnt := 1 }

/-- Plane array with two present planes whose BOs are both mapped
(pointers 100 and 200); slots 2 and 3 empty. -/
def planesTwoMapped : Nat → igt_fb_plane :=
  fun i =>
    if i = 0 then { bo := some (boMappedNative 100), pitch := 256, offset := 0 }
    else if i = 1 then { bo := some (boMappedNative 200), pitch := 256, offset := 0 }
    else emptyPlane

/-- A two-plane framebuffer with both planes mapped, used to evaluate
igt_framebuffer_unmap. -/
def fbTwoMapped : igt_framebuffer :=
  { refcnt := 1, id := 1, format := DRM_FORMAT_XRGB8888, width := 64, height := 64,
    modifier := 0, planes := planesTwoMapped, planeptrs := fun _ => none }

/-- Plane array with three present unmapped planes; the BO of plane 1 has
a backend whose map fails, planes 0 and 2 map fine. -/
def planesThreeSecondFails : Nat → igt_fb_plane :=
  fun i =>
    if i = 0 then { bo := some boUnmappedGood, pitch := 256, offset := 0 }
    else if i = 1 then { bo := some boUnmappedMapFails, pitch := 256, offset := 0 }
    else if i = 2 then { bo := some boUnmappedGood, pitch := 256, offset := 0 }
    else emptyPlane

/-- A three-plane framebuffer whose second plane fails to map, used to
exercise the partial-failure unwinding of igt_framebuffer_map. -/
def fbThreeSecondFails : igt_framebuffer :=
  { refcnt := 1, id := 2, format := DRM_FORMAT_XRGB8888, width := 64, height := 64,
    modifier := 0, planes := planesThreeSecondFails, planeptrs := fun _ => none }

/-! ## Theorems: tile engine -/

theorem memcpyBytes_hit (dst src : Buf) (dstpos srcpos len p : Nat)
    (h1 : dstpos ≤ p) (h2 : p < dstpos + len) :
    memcpyBytes dst dstpos src srcpos len p = src (srcpos + (p - dstpos)) := by
  simp [memcpyBytes, h1, h2]

theorem memcpyBytes_miss (dst src : Buf) (dstpos srcpos len p : Nat)
    (h : p < dstpos ∨ dstpos + len ≤ p) :
    memcpyBytes dst dstpos src srcpos len p = dst p := by
  unfold memcpyBytes
  rw [if_neg]
  rcases h with h | h <;> omega

theorem list_range_four : List.range 4 = [0, 1, 2, 3] := rfl

/-- Reading back line i, byte j of a micro-tile written by the 4-line copy
loop (destination contiguous with stride 16) returns the source byte of
line i at offset j. -/
theorem copyLines4_read (dst src : Buf) (dpos spos sstride : Nat) (i j : Nat)
    (hi : i < 4) (hj : j < 16) :
    copyLines4 dst dpos 16 src spos sstride (dpos + i * 16 + j) =
      src (spos + i * sstride + j) := by
  unfold copyLines4
  rw [list_range_four]
  simp only [List.foldl]
  interval_cases i
  · rw [memcpyBytes_miss _ _ _ _ _ _ (by omega), memcpyBytes_miss _ _ _ _ _ _ (by omega),
      memcpyBytes_miss _ _ _ _ _ _ (by omega), memcpyBytes_hit _ _ _ _ _ _ (by omega) (by omega)]
    congr 1
    omega
  · rw [memcpyBytes_miss _ _ _ _ _ _ (by omega), memcpyBytes_miss _ _ _ _ _ _ (by omega),
      memcpyBytes_hit _ _ _ _ _ _ (by omega) (by omega)]
    congr 1
    omega
  · rw [memcpyBytes_miss _ _ _ _ _ _ (by omega),
      memcpyBytes_hit _ _ _ _ _ _ (by omega) (by omega)]
    congr 1
    omega
  · rw [memcpyBytes_hit _ _ _ _ _ _ (by omega) (by omega)]
    congr 1
    omega

/-- Writing the 4 micro-tile lines back into some linear buffer lin0, from
a tile buffer whose micro-tile bytes agree with the linear buffer lin,
restores the values of lin at every byte of the micro-tile's lines. -/
theorem copyLines4_lines_restore (lin lin0 tile2 : Buf) (L T pitch : Nat)
    (hA : ∀ i < 4, ∀ j < 16, tile2 (T + i * 16 + j) = lin (L + i * pitch + j)) :
    ∀ p, (∃ i < 4, ∃ j < 16, p = L + i * pitch + j) →
      copyLines4 lin0 L pitch tile2 T 16 p = lin p := by
  intro p hp
  unfold copyLines4
  rw [list_range_four]
  simp only [List.foldl]
  simp only [memcpyBytes]
  split_ifs with h3 h2 h1 h0
  · rw [hA 3 (by omega) (p - (L + 3 * pitch)) (by omega)]
    congr 1
    omega
  · rw [hA 2 (by omega) (p - (L + 2 * pitch)) (by omega)]
    congr 1
    omega
  · rw [hA 1 (by omega) (p - (L + 1 * pitch)) (by omega)]
    congr 1
    omega
  · rw [hA 0 (by omega) (p - (L + 0 * pitch)) (by omega)]
    congr 1
    omega
  · obtain ⟨i, hi, j, hj, rfl⟩ := hp
    interval_cases i
    · exact absurd ⟨by omega, by omega⟩ h0
    · exact absurd ⟨by omega, by omega⟩ h1
    · exact absurd ⟨by omega, by omega⟩ h2
    · exact absurd ⟨by omega, by omega⟩ h3

/-- Writing the micro-tile lines back into the very linear buffer they were
read from leaves that buffer unchanged. -/
theorem copyLines4_self (lin tile2 : Buf) (L T pitch : Nat)
    (hA : ∀ i < 4, ∀ j < 16, tile2 (T + i * 16 + j) = lin (L + i * pitch + j)) :
    copyLines4 lin L pitch tile2 T 16 = lin := by
  funext p
  unfold copyLines4
  rw [list_range_four]
  simp only [List.foldl]
  simp only [memcpyBytes]
  split_ifs with h3 h2 h1 h0
  · rw [hA 3 (by omega) (p - (L + 3 * pitch)) (by omega)]
    congr 1
    omega
  · rw [hA 2 (by omega) (p - (L + 2 * pitch)) (by omega)]
    congr 1
    omega
  · rw [hA 1 (by omega) (p - (L + 1 * pitch)) (by omega)]
    congr 1
    omega
  · rw [hA 0 (by omega) (p - (L + 0 * pitch)) (by omega)]
    congr 1
    omega
  · rfl

/-- Under a passing alignment assert, vc4_get_t_utile_pos returns some
position pair whose linear component is ypos*pitch + xpos*4. -/
theorem vc4_get_t_utile_pos_some (x y tpr tpc pitch : Nat) (hx : x % 4 = 0) :
    ∃ T, vc4_get_t_utile_pos x y tpr tpc pitch = some (y * pitch + x * 4, T) := by
  simp only [vc4_get_t_utile_pos, hx]
  exact ⟨_, rfl⟩

/-- vc4_t_utile_from_linear at a resolved position is the 4-line copy into
the tile buffer. -/
theorem vc4_t_utile_from_linear_eq (x y tpr tpc pitch L T : Nat) (lin tile : Buf)
    (hpos : vc4_get_t_utile_pos x y tpr tpc pitch = some (L, T)) :
    vc4_t_utile_from_linear x y tpr tpc pitch lin tile =
      some (copyLines4 tile T 16 lin L pitch) := by
  simp only [vc4_t_utile_from_linear, hpos, Option.map_some']
  rfl

/-- vc4_t_utile_to_linear at a resolved position is the 4-line copy into
the linear buffer. -/
theorem vc4_t_utile_to_linear_eq (x y tpr tpc pitch L T : Nat) (lin tile : Buf)
    (hpos : vc4_get_t_utile_pos x y tpr tpc pitch = some (L, T)) :
    vc4_t_utile_to_linear x y tpr tpc pitch lin tile =
      some (copyLines4 lin L pitch tile T 16) := by
  simp only [vc4_t_utile_to_linear, hpos, Option.map_some']
  rfl

/-- C1: for the closed-form VC4 T-tile format the two translation
directions are mutual inverses.  For every linear buffer lin, tile buffer
tile, destination linear buffer lin0, and every 4x4-aligned in-bounds
coordinate (x, y), translating the micro-tile at (x, y) with
vc4_t_utile_from_linear and then back with vc4_t_utile_to_linear (both
sharing the coordinate math of vc4_get_t_utile_pos) reproduces the
original linear contents at every byte of that micro-tile (line i,
byte j lives at linear offset y*pitch + x*4 + i*pitch + j), and when the
read-back destination is the original linear buffer itself the buffer is
reproduced exactly. -/
theorem c1_t_utile_roundtrip (x y tpr tpc pitch : Nat) (lin tile lin0 : Buf)
    (hx : x % 4 = 0) (hy : y % 4 = 0) (hxb : x < 32 * tpr) (hyb : y < 32 * tpc) :
    ∃ tile2 lin2,
      vc4_t_utile_from_linear x y tpr tpc pitch lin tile = some tile2 ∧
      vc4_t_utile_to_linear x y tpr tpc pitch lin0 tile2 = some lin2 ∧
      (∀ i < 4, ∀ j < 16,
        lin2 (y * pitch + x * 4 + i * pitch + j) =
          lin (y * pitch + x * 4 + i * pitch + j)) ∧
      (lin0 = lin → lin2 = lin) := by
  obtain ⟨T, hpos⟩ := vc4_get_t_utile_pos_some x y tpr tpc pitch hx
  set L := y * pitch + x * 4 with hL
  set tile2 := copyLines4 tile T 16 lin L pitch with htile2
  have hA : ∀ i < 4, ∀ j < 16, tile2 (T + i * 16 + j) = lin (L + i * pitch + j) := by
    intro i hi j hj
    exact copyLines4_read tile lin T L pitch i j hi hj
  refine ⟨tile2, copyLines4 lin0 L pitch tile2 T 16, ?_, ?_, ?_, ?_⟩
  · exact vc4_t_utile_from_linear_eq x y tpr tpc pitch L T lin tile hpos
  · exact vc4_t_utile_to_linear_eq x y tpr tpc pitch L T lin0 tile2 hpos
  · intro i hi j hj
    exact copyLines4_lines_restore lin lin0 tile2 L T pitch hA _ ⟨i, hi, j, hj, rfl⟩
  · intro h
    subst h
    exact copyLines4_self lin0 tile2 L T pitch hA

/-- Witness for C1 at the concrete aligned in-bounds coordinate (4, 8) of
a 64x64 T-tiled surface with pitch 256. -/
theorem c1_t_utile_roundtrip_witness :
    4 % 4 = 0 ∧ 8 % 4 = 0 ∧ 4 < 32 * 2 ∧ 8 < 32 * 2 ∧
    ∃ tile2 lin2,
      vc4_t_utile_from_linear 4 8 2 2 256 (fun p => p % 251) (fun _ => 0) = some tile2 ∧
      vc4_t_utile_to_linear 4 8 2 2 256 (fun _ => 77) tile2 = some lin2 ∧
      (∀ i < 4, ∀ j < 16,
        lin2 (8 * 256 + 4 * 4 + i * 256 + j) =
          (fun p => p % 251) (8 * 256 + 4 * 4 + i * 256 + j)) ∧
      ((fun _ => 77) = (fun p => p % 251) → lin2 = (fun p => p % 251)) :=
  ⟨by decide, by decide, by decide, by decide,
    c1_t_utile_roundtrip 4 8 2 2 256 (fun p => p % 251) (fun _ => 0) (fun _ => 77)
      (by decide) (by decide) (by decide) (by decide)⟩

/-- C2, evaluated at the failing input.  For a 64x64 T-tiled framebuffer
(tiles_per_row = tiles_per_column = 2, shadow pitch 256), the map-to-linear
copy loops of vc4_t_tile_fb_map_linear bound the pixel coordinates xpos and
ypos by the tile counts width/32 and height/32 instead of by the pixel
dimensions, so only the single micro-tile at (0, 0) is converted.  With a
tiled source whose every byte is 1 and a shadow linear buffer whose every
byte is 0, the returned linear buffer holds the source value 1 at linear
offset 0 (pixel (0, 0)) but still holds the shadow's initial 0 at linear
offset 16 (pixel (4, 0), well inside the 64x64 surface, whose source byte
is 1): the buffer does not match the tiled source over the whole surface,
contradicting the claim. -/
theorem c2_map_linear_converts_only_prefix :
    (vc4_t_tile_fb_map_linear_copy 64 64 256 (fun _ => 1) (fun _ => 0)).map
        (fun f => (f 0, f 16)) = some (1, 0) ∧ (1 : Nat) ≠ 0 := by
  constructor
  · decide
  · decide

/-! ## Theorems: buffer objects -/

theorem igt_bo_ref_times_spec (bo : igt_bo) (n : Nat) :
    igt_bo_ref_times bo n = { bo with refcnt := bo.refcnt + n } := by
  induction n generalizing bo with
  | zero => simp [igt_bo_ref_times]
  | succ n ih =>
    rw [igt_bo_ref_times, ih]
    simp only [igt_bo_ref]
    congr 1
    push_cast
    ring

theorem igt_bo_unref_times_crash (n : Nat) :
    ∀ bo : igt_bo, bo.ops = none → bo.refcnt = (n : Int) + 1 →
      igt_bo_unref_times bo (n + 1) = .crash := by
  induction n with
  | zero =>
    intro bo hops hrc
    have h1 : igt_bo_unref bo = .crash := by
      unfold igt_bo_unref
      rw [if_neg (by omega), hops]
    rw [igt_bo_unref_times, h1]
  | succ n ih =>
    intro bo hops hrc
    have h1 : igt_bo_unref bo = .alive { bo with refcnt := bo.refcnt - 1 } := by
      unfold igt_bo_unref
      rw [if_pos (by omega)]
    rw [igt_bo_unref_times, h1]
    exact ih _ hops (by simp; omega)

/-- C3: the claim fails on the code.  igt_bo_create never stores the
supplied operation table (the ops parameter is dead and bo->ops keeps
calloc's NULL), so for every BO produced by create and then referenced n
further times, the (n+1)-th unref — the one that brings refcnt to 0 —
dereferences the NULL vtable instead of invoking the supplied destroy:
the run crashes and destroy is invoked zero times, not exactly once. -/
theorem c3_last_unref_crashes_destroy_never_runs (ops : igt_bo_ops) (handle size n : Nat) :
    igt_bo_unref_times (igt_bo_ref_times (igt_bo_create ops handle size) n) (n + 1) =
      .crash := by
  rw [igt_bo_ref_times_spec]
  refine igt_bo_unref_times_crash n _ (by simp [igt_bo_create]) ?_
  simp [igt_bo_create]
  omega

/-- Mapping an unmapped BO whose backend map succeeds records the pointer,
the mode and nest count 1, and makes exactly one backend map call. -/
theorem igt_bo_map_fresh_ok (bo : igt_bo) (o : igt_bo_ops) (linear : Bool) (p : Nat)
    (hmap : bo.map = none) (hops : bo.ops = some o)
    (hres : o.mapResult linear = some p) :
    igt_bo_map bo linear =
      .ok (some p) { bo with map := some p, mapcnt := 1, linearmap := linear }
        [.backendMap] := by
  unfold igt_bo_map
  simp only [hmap, hops, hres]

/-- Mapping an unmapped BO whose backend map fails returns NULL, leaves
the BO unchanged, and makes exactly one backend map call. -/
theorem igt_bo_map_fresh_fail (bo : igt_bo) (o : igt_bo_ops) (linear : Bool)
    (hmap : bo.map = none) (hops : bo.ops = some o)
    (hres : o.mapResult linear = none) :
    igt_bo_map bo linear = .ok none bo [.backendMap] := by
  unfold igt_bo_map
  simp only [hmap, hops, hres]

/-- Mapping a BO already mapped in the same mode returns the existing
pointer and only increments the nest count, with no backend call. -/
theorem igt_bo_map_nested (bo : igt_bo) (p : Nat)
    (hmap : bo.map = some p) :
    igt_bo_map bo bo.linearmap =
      .ok (some p) { bo with mapcnt := bo.mapcnt + 1 } [] := by
  unfold igt_bo_map
  simp only [hmap]
  rw [if_neg (by simp)]

/-- Unmapping a BO with nest count at most 1 and a successful backend
unmap clears the pointer and the nest count, with exactly one backend
unmap call. -/
theorem igt_bo_unmap_last (bo : igt_bo) (o : igt_bo_ops)
    (hops : bo.ops = some o) (hcnt : ¬bo.mapcnt > 1) (hret : o.unmapResult = 0) :
    igt_bo_unmap bo = .ok 0 { bo with mapcnt := 0, map := none } [.backendUnmap] := by
  unfold igt_bo_unmap
  rw [if_neg hcnt]
  simp only [hops, hret, if_pos]

/-- Unmapping a BO with nest count above 1 only decrements the count, with
no backend call. -/
theorem igt_bo_unmap_nested (bo : igt_bo) (hcnt : bo.mapcnt > 1) :
    igt_bo_unmap bo = .ok (bo.mapcnt - 1) { bo with mapcnt := bo.mapcnt - 1 } [] := by
  unfold igt_bo_unmap
  rw [if_pos hcnt]

/-- C6: mapping a BO that is currently mapped in the other mode returns no
pointer and leaves the BO — pointer, mode and nest count — entirely
unchanged, with no backend call; in particular the pointer obtained
before the failed call is still the recorded mapping. -/
theorem c6_map_mode_conflict_no_side_effect (bo : igt_bo) (p : Nat) (m : Bool)
    (hmapped : bo.map = some p) (hmode : m ≠ bo.linearmap) :
    igt_bo_map bo m = .ok none bo [] := by
  unfold igt_bo_map
  rw [hmapped]
  exact if_pos hmode

/-- Witness for C6: a BO mapped in native mode (linearmap = false) at
pointer 1000, asked for a linear mapping. -/
theorem c6_map_mode_conflict_no_side_effect_witness :
    (boMappedNative 1000).map = some 1000 ∧
    (true ≠ (boMappedNative 1000).linearmap) ∧
    igt_bo_map (boMappedNative 1000) true = .ok none (boMappedNative 1000) [] :=
  ⟨rfl, by decide,
    c6_map_mode_conflict_no_side_effect (boMappedNative 1000) 1000 true rfl (by decide)⟩

/-- C7: nesting of BO map/unmap.  For an initially unmapped BO whose
backend map succeeds and whose backend unmap reports success, two map
calls in the same mode followed by two unmap calls make exactly one
backend map call (on the first map; the second only increments the nest
count and returns the same pointer) and exactly one backend unmap call
(on the second unmap; the first only decrements the nest count), the
event lists of the four calls being [backendMap], [], [], [backendUnmap];
the BO ends unmapped with nest count 0, and a third unmap beyond the
nesting depth leaves the nest count at 0 — it does not go below 0. -/
theorem c7_map_unmap_nesting (bo : igt_bo) (o : igt_bo_ops) (m : Bool) (p : Nat)
    (hops : bo.ops = some o) (hunmapped : bo.map = none)
    (hbm : o.mapResult m = some p) (hbu : o.unmapResult = 0) :
    ∃ bo1 bo2 bo3 bo4 bo5,
      igt_bo_map bo m = .ok (some p) bo1 [.backendMap] ∧ bo1.mapcnt = 1 ∧
      igt_bo_map bo1 m = .ok (some p) bo2 [] ∧ bo2.mapcnt = 2 ∧
      igt_bo_unmap bo2 = .ok 1 bo3 [] ∧ bo3.mapcnt = 1 ∧ bo3.map = some p ∧
      igt_bo_unmap bo3 = .ok 0 bo4 [.backendUnmap] ∧
      bo4.map = none ∧ bo4.mapcnt = 0 ∧
      igt_bo_unmap bo4 = .ok 0 bo5 [.backendUnmap] ∧ bo5.mapcnt = 0 := by
  refine ⟨{ bo with map := some p, mapcnt := 1, linearmap := m },
    { bo with map := some p, mapcnt := 2, linearmap := m },
    { bo with map := some p, mapcnt := 1, linearmap := m },
    { bo with map := none, mapcnt := 0, linearmap := m },
    { bo with map := none, mapcnt := 0, linearmap := m },
    ?_, rfl, ?_, rfl, ?_, rfl, rfl, ?_, rfl, rfl, ?_, rfl⟩
  · exact igt_bo_map_fresh_ok bo o m p hunmapped hops hbm
  · exact igt_bo_map_nested { bo with map := some p, mapcnt := 1, linearmap := m } p rfl
  · exact igt_bo_unmap_nested { bo with map := some p, mapcnt := 2, linearmap := m }
      (by norm_num)
  · exact igt_bo_unmap_last { bo with map := some p, mapcnt := 1, linearmap := m } o
      hops (by norm_num) hbu
  · exact igt_bo_unmap_last { bo with map := none, mapcnt := 0, linearmap := m } o
      hops (by norm_num) hbu

/-- Witness for C7: the concrete unmapped BO boUnmappedGood mapped twice
in linear mode, then unmapped three times. -/
theorem c7_map_unmap_nesting_witness :
    boUnmappedGood.ops = some opsGood ∧
    boUnmappedGood.map = none ∧
    opsGood.mapResult true = some 4096 ∧
    opsGood.unmapResult = 0 ∧
    ∃ bo1 bo2 bo3 bo4 bo5,
      igt_bo_map boUnmappedGood true = .ok (some 4096) bo1 [.backendMap] ∧
        bo1.mapcnt = 1 ∧
      igt_bo_map bo1 true = .ok (some 4096) bo2 [] ∧ bo2.mapcnt = 2 ∧
      igt_bo_unmap bo2 = .ok 1 bo3 [] ∧ bo3.mapcnt = 1 ∧ bo3.map = some 4096 ∧
      igt_bo_unmap bo3 = .ok 0 bo4 [.backendUnmap] ∧
      bo4.map = none ∧ bo4.mapcnt = 0 ∧
      igt_bo_unmap bo4 = .ok 0 bo5 [.backendUnmap] ∧ bo5.mapcnt = 0 :=
  ⟨rfl, rfl, rfl, rfl,
    c7_map_unmap_nesting boUnmappedGood opsGood true 4096 rfl rfl rfl rfl⟩

/-! ## Theorems: framebuffers -/

/-- C8, refuted at the failing input and generalized: whenever the
FormatInfo lookup fails, igt_framebuffer_create does not return no object
— it dereferences the NULL finfo pointer in its plane loop
(finfo->nplanes) and crashes, because the C function never checks the
lookup result. -/
theorem c8_create_unknown_format_crashes (width height modifier format : Nat)
    (planes : Nat → igt_fb_plane)
    (hnone : igt_get_fb_format_info format = none) :
    igt_framebuffer_create width height format modifier planes = .crash := by
  unfold igt_framebuffer_create
  rw [hnone]

/-- Witness for C8: format id 0 is not in the table, and creating a
framebuffer with it crashes on the NULL finfo dereference instead of
returning no object. -/
theorem c8_create_unknown_format_crashes_witness :
    igt_get_fb_format_info 0 = none ∧
    igt_framebuffer_create 1024 256 0 0 (fun _ => emptyPlane) = .crash :=
  ⟨rfl, c8_create_unknown_format_crashes 1024 256 0 0 (fun _ => emptyPlane) rfl⟩

/-- C9, evaluated on the table as written.  The lookup for the 1-plane
XRGB8888 format returns nplanes = 1, but the per-plane cpp entry is 32 —
the format's bits per pixel, not its 4 bytes per pixel — so the
width-1024 pitch that igt_vc4_new_framebuffer computes from it
(cpp[0] * width) is 32768, not the 4096 the claim requires. -/
theorem c9_xrgb8888_cpp_is_32_not_4 :
    (igt_get_fb_format_info DRM_FORMAT_XRGB8888).map
        (fun fi => (fi.nplanes, fi.cpp.getD 0 0)) = some (1, 32) ∧
    (igt_get_fb_format_info DRM_FORMAT_XRGB8888).map
        (fun fi => vc4_fb_plane_pitch fi 1024 0) = some 32768 ∧
    (32 : Nat) ≠ 4 ∧ (32768 : Nat) ≠ 4096 :=
  ⟨by decide, by decide, by decide, by decide⟩

/-- C10, refuted at plane index 4.  The bounds guard of
igt_framebuffer_get_ptr uses plane > ARRAY_SIZE instead of >=, so the
index 4 — exactly the plane-array capacity IGT_MAX_FB_PLANES — passes the
guard and the function reads fb->planes[4], one element past the array,
for every framebuffer; the claim requires a null sentinel with no
out-of-bounds read. -/
theorem c10_get_ptr_plane4_reads_past_array (fb : igt_framebuffer) :
    igt_framebuffer_get_ptr fb 4 = .oobRead := rfl

/-- C4, evaluated at the failing input.  On a framebuffer with two
present, mapped planes, igt_framebuffer_unmap unmaps plane 0 and then
decrements its index i from 0 to -1; the loop guard converts i to size_t
(ARRAY_SIZE is a sizeof quotient), so the loop exits at once.  The call
returns 0 after unmapping only plane 0 — the BO-level trace is exactly
[boUnmap 0] — and plane 1 is left mapped at pointer 200, while the claim
requires every present plane to be unmapped, plane 0 last. -/
theorem c4_unmap_stops_after_plane0 :
    ∃ planes2,
      igt_framebuffer_unmap fbTwoMapped = .ok 0 planes2 [.boUnmap 0] ∧
      ((planes2 1).bo).map igt_bo.map = some (some 200) ∧
      ((planes2 0).bo).map igt_bo.map = some none :=
  ⟨_, rfl, rfl, rfl⟩

/-- Specification of the err_unmap unwind loop: when every plane below j
holds a BO with nest count at most 1, a vtable and a succeeding backend
unmap, the loop unmaps planes j-1 down to 0 in that order (trace
[boUnmap (j-1), ..., boUnmap 0]), leaves every plane below j unmapped
with nest count 0, and does not touch planes at or above j. -/
theorem fbMapUnwind_spec :
    ∀ (j : Nat) (planes : Nat → igt_fb_plane) (tr : List FbEvent),
      (∀ l, l < j → ∃ bo o, (planes l).bo = some bo ∧ ¬bo.mapcnt > 1 ∧
        bo.ops = some o ∧ o.unmapResult = 0) →
      ∃ planes2,
        fbMapUnwind planes j tr =
          some (planes2, tr ++ (List.range j).reverse.map FbEvent.boUnmap) ∧
        (∀ l, l < j →
          ∃ bo2, (planes2 l).bo = some bo2 ∧ bo2.map = none ∧ bo2.mapcnt = 0) ∧
        (∀ l, j ≤ l → planes2 l = planes l) := by
  intro j
  induction j with
  | zero =>
    intro planes tr _
    exact ⟨planes, by simp [fbMapUnwind], fun l hl => absurd hl (Nat.not_lt_zero l),
      fun l _ => rfl⟩
  | succ j ih =>
    intro planes tr hgood
    obtain ⟨bo, o, hbo, hc, ho, hr⟩ := hgood j (Nat.lt_succ_self j)
    have hu := igt_bo_unmap_last bo o ho hc hr
    have hgood1 : ∀ l, l < j →
        ∃ bo' o', ((Function.update planes j
            { planes j with bo := some { bo with mapcnt := 0, map := none } }) l).bo
              = some bo' ∧
          ¬bo'.mapcnt > 1 ∧ bo'.ops = some o' ∧ o'.unmapResult = 0 := by
      intro l hl
      obtain ⟨bo', o', h1, h2, h3, h4⟩ := hgood l (by omega)
      refine ⟨bo', o', ?_, h2, h3, h4⟩
      rw [Function.update_noteq (show l ≠ j from by omega)]
      exact h1
    obtain ⟨planes2, heq, hclear, huntouched⟩ := ih
      (Function.update planes j
        { planes j with bo := some { bo with mapcnt := 0, map := none } })
      (tr ++ [.boUnmap j]) hgood1
    refine ⟨planes2, ?_, ?_, ?_⟩
    · simp only [fbMapUnwind, hbo, hu]
      rw [heq]
      simp [List.range_succ]
    · intro l hl
      rcases Nat.lt_succ_iff_lt_or_eq.mp hl with h | rfl
      · exact hclear l h
      · refine ⟨{ bo with mapcnt := 0, map := none }, ?_, rfl, rfl⟩
        rw [huntouched l (le_refl l), Function.update_same]
    · intro l hle
      rw [huntouched l (by omega),
        Function.update_noteq (show l ≠ j from by omega)]

/-- Specification of the forward loop of igt_framebuffer_map on a failing
run.  Hypotheses: every present plane at index at least i is unmapped with
a vtable whose unmap succeeds (the planes the loop has not visited yet),
and every plane below i is mapped with nest count at most 1 and a good
vtable (the planes mapped by earlier iterations of this call).  If the
loop returns a nonzero status, then the status is -EINVAL, the trace shows
planes i..k being mapped in order and then planes k-1..0 being unmapped in
exactly the reverse order, and no plane of the final array is left
mapped. -/
theorem fbMapGo_fail_spec :
    ∀ (fuel i : Nat),
    ∀ (planes : Nat → igt_fb_plane) (linear : Bool) (tr : List FbEvent)
      (ret : Int) (planes2 : Nat → igt_fb_plane) (trace : List FbEvent),
      (∀ l, i ≤ l → l < 4 → ∀ bo, (planes l).bo = some bo →
        bo.map = none ∧ ∃ o, bo.ops = some o ∧ o.unmapResult = 0) →
      (∀ l, l < i → ∃ bo o, (planes l).bo = some bo ∧ ¬bo.mapcnt > 1 ∧
        bo.ops = some o ∧ o.unmapResult = 0) →
      fbMapGo planes linear i tr fuel = .ok ret planes2 trace →
      ret ≠ 0 →
      ret = -22 ∧
      (∃ k, i ≤ k ∧ k < 4 ∧
        trace = tr ++ (List.range' i (k + 1 - i)).map FbEvent.boMap ++
          (List.range k).reverse.map FbEvent.boUnmap) ∧
      (∀ l, l < 4 → ∀ bo2, (planes2 l).bo = some bo2 → bo2.map = none) := by
  intro fuel
  induction fuel with
  | zero =>
    intro i planes linear tr ret planes2 trace _ _ hrun _
    rw [fbMapGo] at hrun
    exact FbMapOut.noConfusion hrun
  | succ fuel ih =>
    intro i planes linear tr ret planes2 trace hpre hinv hrun hret
    rw [fbMapGo] at hrun
    by_cases hi4 : i < 4
    case neg =>
      rw [if_neg hi4] at hrun
      injection hrun with h1 _ _
      exact absurd h1.symm hret
    rw [if_pos hi4] at hrun
    cases hpl : (planes i).bo with
    | none =>
      simp only [hpl] at hrun
      injection hrun with h1 _ _
      exact absurd h1.symm hret
    | some bo =>
      obtain ⟨hmapnone, o, ho, hu0⟩ := hpre i (le_refl i) hi4 bo hpl
      cases hres : o.mapResult linear with
      | none =>
        have hmap := igt_bo_map_fresh_fail bo o linear hmapnone ho hres
        simp only [hpl, hmap] at hrun
        have hg : ∀ l, l < i →
            ∃ bo' o', ((Function.update planes i
                { planes i with bo := some bo }) l).bo = some bo' ∧
              ¬bo'.mapcnt > 1 ∧ bo'.ops = some o' ∧ o'.unmapResult = 0 := by
          intro l hl
          obtain ⟨bo', o', h1, h2, h3, h4⟩ := hinv l hl
          refine ⟨bo', o', ?_, h2, h3, h4⟩
          rw [Function.update_noteq (show l ≠ i from by omega)]
          exact h1
        obtain ⟨ps2, heq, hclear, huntouched⟩ := fbMapUnwind_spec i
          (Function.update planes i { planes i with bo := some bo })
          (tr ++ [.boMap i]) hg
        rw [heq] at hrun
        injection hrun with h1 h2 h3
        subst h2
        subst h3
        refine ⟨h1.symm, ⟨i, le_refl i, hi4, ?_⟩, ?_⟩
        · simp [show i + 1 - i = 1 from by omega, List.range'_one]
        · intro l hl4 bo2 hbo2
          rcases Nat.lt_trichotomy l i with h | h | h
          · obtain ⟨bo3, hb3, hm3, _⟩ := hclear l h
            rw [hb3] at hbo2
            injection hbo2 with h5
            rw [← h5]
            exact hm3
          · subst h
            rw [huntouched l (le_refl l), Function.update_same] at hbo2
            simp only at hbo2
            injection hbo2 with h5
            rw [← h5]
            exact hmapnone
          · rw [huntouched l (by omega),
              Function.update_noteq (show l ≠ i from by omega)] at hbo2
            exact (hpre l (by omega) hl4 bo2 hbo2).1
      | some p =>
        have hmap := igt_bo_map_fresh_ok bo o linear p hmapnone ho hres
        simp only [hpl, hmap] at hrun
        have hpre1 : ∀ l, i + 1 ≤ l → l < 4 → ∀ bo',
            ((Function.update planes i
              { planes i with
                bo := some { bo with map := some p, mapcnt := 1, linearmap := linear } })
                  l).bo = some bo' →
            bo'.map = none ∧ ∃ o', bo'.ops = some o' ∧ o'.unmapResult = 0 := by
          intro l hl1 hl4 bo' hbo'
          rw [Function.update_noteq (show l ≠ i from by omega)] at hbo'
          exact hpre l (by omega) hl4 bo' hbo'
        have hinv1 : ∀ l, l < i + 1 →
            ∃ bo' o', ((Function.update planes i
              { planes i with
                bo := some { bo with map := some p, mapcnt := 1, linearmap := linear } })
                  l).bo = some bo' ∧
              ¬bo'.mapcnt > 1 ∧ bo'.ops = some o' ∧ o'.unmapResult = 0 := by
          intro l hl
          rcases Nat.lt_succ_iff_lt_or_eq.mp hl with h | rfl
          · obtain ⟨bo', o', h1, h2, h3, h4⟩ := hinv l h
            refine ⟨bo', o', ?_, h2, h3, h4⟩
            rw [Function.update_noteq (show l ≠ i from by omega)]
            exact h1
          · refine ⟨{ bo with map := some p, mapcnt := 1, linearmap := linear }, o,
              ?_, by norm_num, ho, hu0⟩
            rw [Function.update_same]
        obtain ⟨h22, ⟨k, hik, hk4, htr⟩, hfinal⟩ := ih (i + 1)
          (Function.update planes i
            { planes i with
              bo := some { bo with map := some p, mapcnt := 1, linearmap := linear } })
          linear (tr ++ [.boMap i]) ret planes2 trace hpre1 hinv1 hrun hret
        refine ⟨h22, ⟨k, by omega, hk4, ?_⟩, hfinal⟩
        rw [htr]
        have hr1 : k + 1 - (i + 1) = k - i := by omega
        have hr2 : List.range' i (k + 1 - i) = i :: List.range' (i + 1) (k - i) := by
          rw [show k + 1 - i = (k - i) + 1 from by omega, List.range'_succ]
        rw [hr1, hr2]
        simp [List.append_assoc]

/-- C5: if any plane's BO map fails during igt_framebuffer_map, then every
plane already mapped by that same call is unmapped, in LIFO order, before
the failure status -EINVAL is returned: the BO-level trace is exactly
boMap 0 .. boMap k (plane k being the one that failed) followed by
boUnmap k-1 .. boUnmap 0, and no plane of the framebuffer is left mapped.
The hypotheses say that every present plane starts unmapped (so "mapped"
means "mapped by this call") and has a backend whose unmap succeeds, as
all backends in the repository do. -/
theorem c5_map_failure_unwinds_lifo (fb : igt_framebuffer) (linear : Bool) (ret : Int)
    (planes2 : Nat → igt_fb_plane) (trace : List FbEvent)
    (hpre : ∀ l, l < 4 → ∀ bo, (fb.planes l).bo = some bo →
      bo.map = none ∧ ∃ o, bo.ops = some o ∧ o.unmapResult = 0)
    (hrun : igt_framebuffer_map fb linear = .ok ret planes2 trace)
    (hfail : ret ≠ 0) :
    ret = -22 ∧
    (∃ k, k < 4 ∧
      trace = (List.range (k + 1)).map FbEvent.boMap ++
        (List.range k).reverse.map FbEvent.boUnmap) ∧
    (∀ l, l < 4 → ∀ bo2, (planes2 l).bo = some bo2 → bo2.map = none) := by
  obtain ⟨h22, ⟨k, _, hk4, htr⟩, hfinal⟩ := fbMapGo_fail_spec 8 0 fb.planes linear []
    ret planes2 trace (fun l _ hl4 bo hbo => hpre l hl4 bo hbo)
    (fun l hl => absurd hl (Nat.not_lt_zero l)) hrun hfail
  refine ⟨h22, ⟨k, hk4, ?_⟩, hfinal⟩
  rw [htr]
  simp [List.range_eq_range']

/-- Witness for C5: a three-plane framebuffer whose plane-1 backend map
fails; the run returns -EINVAL with trace
[boMap 0, boMap 1, boUnmap 0] and no plane left mapped. -/
theorem c5_map_failure_unwinds_lifo_witness :
    (∀ l, l < 4 → ∀ bo, (fbThreeSecondFails.planes l).bo = some bo →
      bo.map = none ∧ ∃ o, bo.ops = some o ∧ o.unmapResult = 0) ∧
    ((-22 : Int) ≠ 0) ∧
    ∃ planes2 trace,
      igt_framebuffer_map fbThreeSecondFails true = .ok (-22) planes2 trace ∧
      ((-22 : Int) = -22 ∧
        (∃ k, k < 4 ∧
          trace = (List.range (k + 1)).map FbEvent.boMap ++
            (List.range k).reverse.map FbEvent.boUnmap) ∧
        (∀ l, l < 4 → ∀ bo2, (planes2 l).bo = some bo2 → bo2.map = none)) := by
  have hpre : ∀ l, l < 4 → ∀ bo, (fbThreeSecondFails.planes l).bo = some bo →
      bo.map = none ∧ ∃ o, bo.ops = some o ∧ o.unmapResult = 0 := by
    intro l hl bo hbo
    interval_cases l
    · simp [fbThreeSecondFails, planesThreeSecondFails] at hbo
      subst hbo
      exact ⟨rfl, opsGood, rfl, rfl⟩
    · simp [fbThreeSecondFails, planesThreeSecondFails] at hbo
      subst hbo
      exact ⟨rfl, opsMapFails, rfl, rfl⟩
    · simp [fbThreeSecondFails, planesThreeSecondFails] at hbo
      subst hbo
      exact ⟨rfl, opsGood, rfl, rfl⟩
    · simp [fbThreeSecondFails, planesThreeSecondFails, emptyPlane] at hbo
  exact ⟨hpre, by norm_num, _, _, rfl,
    c5_map_failure_unwinds_lifo fbThreeSecondFails true (-22) _ _ hpre rfl
      (by norm_num)⟩

end IGT
